import Mathlib

/-
Verification of the FIF measurement-info and CTF-compensation readers
(src/fiff/ctf.py and src/mne/fiff/meas_info.py) against their
natural-language specification.

Shallow embedding conventions, stated once here:

* Floats are modelled as exact rationals; machine integers as Int.
* Fallible code is modelled in the Except monad over PyError.  ValueError
  becomes PyError.valueError with the formatted message string.
* The source accesses dict entries through attribute syntax (Bunch-style
  records: one.ctfkind, mat.data, node.dir ...).  The embedding models these
  records as structures and attribute/key access as field access.  Likewise
  np.inv denotes the matrix inverse (numpy.linalg.inv), np.ones(1, n) is the
  MATLAB-style ones(1,n) row vector of n ones, and del statements are no-ops.
  Genuine data-flow facts of the source (which index is used, which branch
  raises, in which order) are kept exactly as written.
* The stream fid is modelled as a list of decoded tags; a tag position is its
  index in that list, and read_tag(fid, pos) is a positional lookup.
* tag.py, tree.py, proj.py, channels.py and constants.py of this repository
  are not under src/; the definitions taken from them are modelled from the
  spec and carry a doc comment saying so.
-/

namespace Mne

/- FIF tag-kind / block-type / coordinate-frame constants.
Modelled from the spec: constants.py is not under src/; the constants are
plain integer codes and only their distinctness matters here. -/
namespace FIFF

def FIFFB_MEAS : Int := 100
def FIFFB_MEAS_INFO : Int := 101
def FIFFB_ISOTRAK : Int := 107
def FIFFB_HPI_RESULT : Int := 109
def FIFFB_DACQ_PARS : Int := 117
def FIFFB_PROJ_ITEM : Int := 314
def FIFFB_MNE_NAMED_MATRIX : Int := 3531
def FIFFB_MNE_CTF_COMP_DATA : Int := 3521
def FIFFB_MNE_BAD_CHANNELS : Int := 3532

def FIFF_NCHAN : Int := 200
def FIFF_SFREQ : Int := 201
def FIFF_CH_INFO : Int := 203
def FIFF_MEAS_DATE : Int := 204
def FIFF_DIG_POINT : Int := 213
def FIFF_LOWPASS : Int := 219
def FIFF_COORD_TRANS : Int := 222
def FIFF_HIGHPASS : Int := 223
def FIFF_DACQ_PARS : Int := 150
def FIFF_DACQ_STIM : Int := 151
def FIFF_MNE_ROW_NAMES : Int := 3502
def FIFF_MNE_COL_NAMES : Int := 3503
def FIFF_MNE_NROW : Int := 3504
def FIFF_MNE_NCOL : Int := 3505
def FIFF_MNE_CTF_COMP_KIND : Int := 3506
def FIFF_MNE_CTF_COMP_DATA : Int := 3507
def FIFF_MNE_CTF_COMP_CALIBRATED : Int := 3508
def FIFF_MNE_CH_NAME_LIST : Int := 3516

def FIFFV_COORD_DEVICE : Int := 1
def FIFFV_COORD_HEAD : Int := 4
def FIFFV_MNE_COORD_CTF_HEAD : Int := 1005

end FIFF

/-- Python exceptions surfaced by the readers. -/
inductive PyError where
  | valueError (msg : String)
  | typeError (msg : String)
  | formatError (msg : String)
  | indexError
deriving DecidableEq, Repr

/-- A file id record (FIFF id): the fields the readers consume. -/
structure FiffId where
  secs : Int
  usecs : Int
deriving DecidableEq, Repr

/-- A channel descriptor: the fields the compensation module consumes
(ch_name, range, cal), per the spec's channel descriptor collaborator. -/
structure ChInfo where
  ch_name : String
  range : ℚ
  cal : ℚ
deriving DecidableEq, Repr

/-- A coordinate transform record: from/to frame codes and a 4x4 matrix.
The dict keys given as from and to in the source are spelled from_ and to_
here (both are Lean keywords). -/
structure CoordTrans where
  from_ : Int
  to_ : Int
  trans : Matrix (Fin 4) (Fin 4) ℚ

/-- A digitization point: the fields the info assembler consumes. -/
structure DigPoint where
  kind : Int
  ident : Int
  coord_frame : Int
deriving DecidableEq, Repr

/-- Decoded payload of one tag, per declared type. -/
inductive TagData where
  | int (n : Int)
  | float (q : ℚ)
  | str (s : String)
  | chInfo (c : ChInfo)
  | coordTrans (t : CoordTrans)
  | digPoint (d : DigPoint)
  | matrix (m : List (List ℚ))

/-- One decoded tag record: its kind code and decoded data. -/
structure Tag where
  kind : Int
  data : TagData

/-- One directory entry of a tree node: (kind, position). -/
structure DirEntry where
  kind : Int
  pos : Nat
deriving DecidableEq, Repr

/-- A node of the FIF block tree.
Modelled from the spec: tree.py is not under src/; per the spec a Tree Node is
the dict-like record with keys id, block, parent_id, directory and children;
nent and nchild of the source are the lengths of directory and children.
The source spells the directory field dir in ctf.py and directory in
meas_info.py; both denote this field. -/
inductive TreeNode where
  | mk (block : Int) (id : Option FiffId) (parent_id : Option FiffId)
       (directory : List DirEntry) (children : List TreeNode)

def TreeNode.block : TreeNode → Int
  | .mk b _ _ _ _ => b

def TreeNode.id : TreeNode → Option FiffId
  | .mk _ i _ _ _ => i

def TreeNode.parent_id : TreeNode → Option FiffId
  | .mk _ _ p _ _ => p

def TreeNode.directory : TreeNode → List DirEntry
  | .mk _ _ _ d _ => d

def TreeNode.children : TreeNode → List TreeNode
  | .mk _ _ _ _ c => c

/-- Python len() of a tree node.  A node is a dict-like record (see
TreeNode), so len() is its key count: 5.  What matters below is only that it
is never 1. -/
def TreeNode.pyLen (_ : TreeNode) : Nat := 5

mutual

/-- dir_tree_find, modelled from the spec: tree.py is not under src/; the
spec says it collects all descendant nodes including the node itself whose
block type equals the target, preserving file (encounter) order. -/
def dir_tree_find (t : TreeNode) (b : Int) : List TreeNode :=
  match t with
  | .mk blk i p d cs =>
      (if blk = b then [TreeNode.mk blk i p d cs] else []) ++ dir_tree_find_list cs b
termination_by structural t

def dir_tree_find_list (ts : List TreeNode) (b : Int) : List TreeNode :=
  match ts with
  | [] => []
  | c :: cs => dir_tree_find c b ++ dir_tree_find_list cs b
termination_by structural ts

end

/-- First directory entry of the node itself with the given kind (the scan
both find_tag and the explicit loops of the source perform). -/
def find_in_dir (node : TreeNode) (kind : Int) : Option DirEntry :=
  node.directory.find? (fun e => e.kind = kind)

/-- has_tag, modelled from the spec: tag.py is not under src/; the spec says
it scans only the node's own directory for an entry of the given kind. -/
def has_tag (node : TreeNode) (kind : Int) : Bool :=
  (find_in_dir node kind).isSome

/-- read_tag, modelled from the spec: tag.py is not under src/; the spec says
it reads the tag at the given position; a read outside the stream is a
FormatError. -/
def read_tag (fid : List Tag) (pos : Nat) : Except PyError Tag :=
  match fid.get? pos with
  | some t => .ok t
  | none => .error (.formatError "tag read failed")

/-- find_tag, modelled from the spec: tag.py is not under src/; the spec says
it scans only the node's own directory and returns the first match or null,
never raising for not found. -/
def find_tag (fid : List Tag) (node : TreeNode) (kind : Int) :
    Except PyError (Option Tag) :=
  match find_in_dir node kind with
  | none => .ok none
  | some e => do
      let t ← read_tag fid e.pos
      .ok (some t)

/-- Splitting a character list at every occurrence of the separator. -/
def splitChars (cs : List Char) (sep : Char) : List (List Char) :=
  match cs with
  | [] => [[]]
  | c :: rest =>
      let r := splitChars rest sep
      if c = sep then [] :: r
      else
        match r with
        | [] => [[c]]
        | g :: gs => (c :: g) :: gs

/-- Python str.split(sep) for a single-character separator, as used for the
colon-delimited name lists. -/
def py_split (s : String) (sep : Char) : List String :=
  (splitChars s.data sep).map (fun g => String.mk g)

/-- Number of rows of a list-of-rows matrix (data.shape[0]). -/
def shape0 (m : List (List ℚ)) : Nat := m.length

/-- Number of columns of a list-of-rows matrix (data.shape[1]). -/
def shape1 (m : List (List ℚ)) : Nat := (m.headD []).length

/-- The named matrix record built by read_named_matrix. -/
structure NamedMatrix where
  nrow : Nat
  ncol : Nat
  row_names : Option (List String)
  col_names : Option (List String)
  data : List (List ℚ)
deriving DecidableEq, Repr

/-- Python 2 loose inequality tag.data != n between a decoded tag payload and
an int: numeric payloads compare numerically, any other payload is unequal. -/
def tag_ne_int (d : TagData) (n : Int) : Bool :=
  match d with
  | .int v => v != n
  | .float q => q != (n : ℚ)
  | _ => true

/-- The descend-one-level step of read_named_matrix: if the node itself is
not a named-matrix block, the first child that is one and has the desired
kind is taken; ctf.py lines 22-33. -/
def resolve_matrix_node (node0 : TreeNode) (matkind : Int) :
    Except PyError TreeNode :=
  if node0.block ≠ FIFF.FIFFB_MNE_NAMED_MATRIX then
    match node0.children.find?
        (fun c => c.block = FIFF.FIFFB_MNE_NAMED_MATRIX && has_tag c matkind) with
    | some c => .ok c
    | none => .error (.valueError
        ("Desired named matrix (kind = " ++ toString matkind ++ ") not available"))
  else
    if !(has_tag node0 matkind) then
      -- the source raises a bare string here (Python 2 string exception)
      .error (.valueError
        ("Desired named matrix (kind = " ++ toString matkind ++ ") not available"))
    else .ok node0

/-- The mandatory data-tag step of read_named_matrix (ctf.py lines 36-40):
the tag of the desired kind must be present, and its payload must be an
array (data.shape fails otherwise). -/
def read_matrix_data (fid : List Tag) (node : TreeNode) (matkind : Int) :
    Except PyError (List (List ℚ)) := do
  let tagOpt ← find_tag fid node matkind
  match tagOpt with
  | none => Except.error (PyError.valueError "Matrix data missing")
  | some tag =>
      match tag.data with
      | .matrix d => Except.ok d
      | _ => Except.error (PyError.typeError "data has no shape")

/-- One optional dimension-count check of read_named_matrix (ctf.py lines
43-51): when the count tag is present its value must equal the given
dimension of the data, else the given mismatch error is raised; an absent
tag checks nothing. -/
def check_dim (fid : List Tag) (node : TreeNode) (kindTag : Int) (n : Nat)
    (msg : String) : Except PyError Unit := do
  let tagOpt ← find_tag fid node kindTag
  match tagOpt with
  | some t =>
      if tag_ne_int t.data (n : Int) then Except.error (PyError.valueError msg)
      else Except.ok ()
  | none => Except.ok ()

/-- One optional name-list read of read_named_matrix (ctf.py lines 53-75):
a present tag is split on colons, an absent one yields None. -/
def read_names (fid : List Tag) (node : TreeNode) (kindTag : Int) :
    Except PyError (Option (List String)) := do
  let tagOpt ← find_tag fid node kindTag
  match tagOpt with
  | some t =>
      match t.data with
      | .str s => Except.ok (some (py_split s ':'))
      | _ => Except.error (PyError.typeError "split expects a string")
  | none => Except.ok none

/-- read_named_matrix of ctf.py: reads the data tag of the given kind, checks
it against the optional NROW/NCOL count tags, and attaches the optional
colon-delimited row/column name lists. -/
def read_named_matrix (fid : List Tag) (node0 : TreeNode) (matkind : Int) :
    Except PyError NamedMatrix := do
  let node ← resolve_matrix_node node0 matkind
  let data ← read_matrix_data fid node matkind
  let nrow := shape0 data
  let ncol := shape1 data
  check_dim fid node FIFF.FIFF_MNE_NROW nrow
    "Number of rows in matrix data and FIFF_MNE_NROW tag do not match"
  check_dim fid node FIFF.FIFF_MNE_NCOL ncol
    "Number of columns in matrix data and FIFF_MNE_NCOL tag do not match"
  let row_names ← read_names fid node FIFF.FIFF_MNE_ROW_NAMES
  let col_names ← read_names fid node FIFF.FIFF_MNE_COL_NAMES
  return { nrow := nrow, ncol := ncol, row_names := row_names,
           col_names := col_names, data := data }

/-- Dot product of two rows (the row-by-column step of np.dot). -/
def dotL (u v : List ℚ) : ℚ := (List.zipWith (· * ·) u v).sum

/-- Transpose of a rectangular list-of-rows matrix. -/
def transposeL (m : List (List ℚ)) : List (List ℚ) :=
  (List.range (shape1 m)).map (fun j => m.map (fun r => r.getD j 0))

/-- np.dot on list-of-rows matrices. -/
def matMulL (A B : List (List ℚ)) : List (List ℚ) :=
  A.map (fun r => (transposeL B).map (fun c => dotL r c))

/-- np.diag of a vector: the square matrix with the vector on the diagonal. -/
def diagL (v : List ℚ) : List (List ℚ) :=
  v.enum.map (fun p => v.enum.map (fun q => if p.1 = q.1 then p.2 else 0))

/-- One compensation record of read_ctf_comp: raw magic, normalized kind,
calibration flag, row/column scale vectors, and the named matrix. -/
structure CompData where
  ctfkind : Int
  kind : Int
  save_calibrated : Bool
  rowcals : List ℚ
  colcals : List ℚ
  data : NamedMatrix
deriving DecidableEq, Repr

/-- The kind normalization of read_ctf_comp: the three known magic values map
to 1/2/3, anything else passes through; ctf.py lines 110-117. -/
def normalize_comp_kind (ctfkind : Int) : Int :=
  if ctfkind = 0x47314252 then 1
  else if ctfkind = 0x47324252 then 2
  else if ctfkind = 0x47334252 then 3
  else ctfkind

/-- The column-calibration loop of read_ctf_comp (ctf.py lines 142-150).
For each column of the data, the column name is counted among the channel
names; count 0 and count greater than 1 raise, and the scale is read off
chs[p] where p is that count (the source indexes with the count, not with
the position of the match). -/
def ctf_col_cals (chs : List ChInfo) (ch_names : List String)
    (mat : NamedMatrix) : Except PyError (List ℚ) :=
  (List.range (shape1 mat.data)).mapM (fun col => do
    let names ← match mat.col_names with
      | some ns => Except.ok ns
      | none => Except.error (PyError.typeError "NoneType is not subscriptable")
    let name ← match names.get? col with
      | some n => Except.ok n
      | none => Except.error PyError.indexError
    let p := ch_names.count name
    if p = 0 then
      Except.error (PyError.valueError
        ("Channel " ++ name ++ " is not available in data"))
    else if 1 < p then
      Except.error (PyError.valueError ("Ambiguous channel " ++ name))
    else
      match chs.get? p with
      | some ch => Except.ok (1 / (ch.range * ch.cal))
      | none => Except.error PyError.indexError)

/-- The row-calibration loop of read_ctf_comp (ctf.py lines 153-161), with
the same count-as-index behaviour as the column loop.  The zero-match raise
of line 157 is a three-expression raise: the row name is passed in the
traceback slot of the raise statement, so the ValueError message stays the
unformatted format string. -/
def ctf_row_cals (chs : List ChInfo) (ch_names : List String)
    (mat : NamedMatrix) : Except PyError (List ℚ) :=
  (List.range (shape0 mat.data)).mapM (fun row => do
    let names ← match mat.row_names with
      | some ns => Except.ok ns
      | none => Except.error (PyError.typeError "NoneType is not subscriptable")
    let name ← match names.get? row with
      | some n => Except.ok n
      | none => Except.error PyError.indexError
    let p := ch_names.count name
    if p = 0 then
      Except.error (PyError.valueError "Channel %s is not available in data")
    else if 1 < p then
      Except.error (PyError.valueError ("Ambiguous channel " ++ name))
    else
      match chs.get? p with
      | some ch => Except.ok (ch.range * ch.cal)
      | none => Except.error PyError.indexError)

/-- Processing of one compensation-data block by read_ctf_comp (the body of
the loop over comps, ctf.py lines 93-170): read the named matrix, the
mandatory kind tag and the optional calibrated tag, and when not calibrated
compute the column and row scales and rescale the data by
diag(row_cals) . data . diag(col_cals). -/
def read_one_comp (fid : List Tag) (chs : List ChInfo) (node : TreeNode) :
    Except PyError CompData := do
  let mat ← read_named_matrix fid node FIFF.FIFF_MNE_CTF_COMP_DATA
  let ctfkind ← match find_in_dir node FIFF.FIFF_MNE_CTF_COMP_KIND with
    | none => Except.error (PyError.valueError "Compensation type not found")
    | some e => do
        let tag ← read_tag fid e.pos
        match tag.data with
        | .int n => Except.ok n
        | _ => Except.error (PyError.typeError "int expected")
  let kind := normalize_comp_kind ctfkind
  let calibrated ← match find_in_dir node FIFF.FIFF_MNE_CTF_COMP_CALIBRATED with
    | none => Except.ok false
    | some e => do
        let tag ← read_tag fid e.pos
        match tag.data with
        | .int n => Except.ok (n != 0)
        | _ => Except.error (PyError.typeError "truth value expected")
  -- rowcals and colcals start as ones(1, shape) vectors and are overwritten
  -- below when the matrix is not yet calibrated
  if calibrated then
    return { ctfkind := ctfkind, kind := kind, save_calibrated := calibrated,
             rowcals := List.replicate (shape0 mat.data) (1 : ℚ),
             colcals := List.replicate (shape1 mat.data) (1 : ℚ),
             data := mat }
  else do
    let ch_names := chs.map (fun c => c.ch_name)
    let col_cals ← ctf_col_cals chs ch_names mat
    let row_cals ← ctf_row_cals chs ch_names mat
    let newdata := matMulL (diagL row_cals) (matMulL mat.data (diagL col_cals))
    return { ctfkind := ctfkind, kind := kind, save_calibrated := calibrated,
             rowcals := row_cals, colcals := col_cals,
             data := { mat with data := newdata } }

/-- read_ctf_comp of ctf.py: every compensation-data block under the node, in
file order, processed by read_one_comp. -/
def read_ctf_comp (fid : List Tag) (node : TreeNode) (chs : List ChInfo) :
    Except PyError (List CompData) :=
  (dir_tree_find node FIFF.FIFFB_MNE_CTF_COMP_DATA).mapM (read_one_comp fid chs)

/-- read_proj, modelled from the spec: proj.py is not under src/; the spec
says only that projection sub-blocks are delegated to the projection reader,
so the reader is modelled as collecting the projection-item sub-blocks. -/
def read_proj (_fid : List Tag) (node : TreeNode) :
    Except PyError (List TreeNode) :=
  Except.ok (dir_tree_find node FIFF.FIFFB_PROJ_ITEM)

/-- The bad-channel reader, modelled from the spec: channels.py is not under
src/; per the spec and the writer (meas_info.py lines 297-300) the bad
channels live in a bad-channels block as one colon-delimited name-list tag,
and the absence of block or tag yields the empty list. -/
def read_bad_channels (fid : List Tag) (node : TreeNode) :
    Except PyError (List String) :=
  match dir_tree_find node FIFF.FIFFB_MNE_BAD_CHANNELS with
  | [] => Except.ok []
  | nd :: _ => do
      let tagOpt ← find_tag fid nd FIFF.FIFF_MNE_CH_NAME_LIST
      match tagOpt with
      | none => Except.ok []
      | some t =>
          match t.data with
          | .str s => Except.ok (py_split s ':')
          | _ => Except.error (PyError.typeError "split expects a string")

/-- The mutable locals filled by the single scan over the info block's tag
directory (meas_info.py lines 57-96). -/
structure ScanState where
  dev_head_t : Option CoordTrans := none
  ctf_head_t : Option CoordTrans := none
  meas_date : Option Int := none
  highpass : Option ℚ := none
  lowpass : Option ℚ := none
  nchan : Option Int := none
  sfreq : Option ℚ := none
  chs : List ChInfo := []

/-- The classification of one coordinate-transform tag (meas_info.py lines
91-96 and 121-126): device to head and CTF-head to head are kept, any other
pair is dropped. -/
def classify_trans (s : ScanState) (cand : CoordTrans) : ScanState :=
  if cand.from_ = FIFF.FIFFV_COORD_DEVICE ∧ cand.to_ = FIFF.FIFFV_COORD_HEAD then
    { s with dev_head_t := some cand }
  else if cand.from_ = FIFF.FIFFV_MNE_COORD_CTF_HEAD ∧
      cand.to_ = FIFF.FIFFV_COORD_HEAD then
    { s with ctf_head_t := some cand }
  else s

/-- One step of the directory scan of read_meas_info (the dispatch on the
entry kind, meas_info.py lines 66-96). -/
def scan_entry (fid : List Tag) (s : ScanState) (e : DirEntry) :
    Except PyError ScanState :=
  if e.kind = FIFF.FIFF_NCHAN then do
    let tag ← read_tag fid e.pos
    match tag.data with
    | .int n => Except.ok { s with nchan := some n }
    | _ => Except.error (PyError.typeError "int conversion failed")
  else if e.kind = FIFF.FIFF_SFREQ then do
    let tag ← read_tag fid e.pos
    match tag.data with
    | .float q => Except.ok { s with sfreq := some q }
    | _ => Except.error (PyError.typeError "float expected")
  else if e.kind = FIFF.FIFF_CH_INFO then do
    let tag ← read_tag fid e.pos
    match tag.data with
    | .chInfo c => Except.ok { s with chs := s.chs ++ [c] }
    | _ => Except.error (PyError.typeError "channel info expected")
  else if e.kind = FIFF.FIFF_LOWPASS then do
    let tag ← read_tag fid e.pos
    match tag.data with
    | .float q => Except.ok { s with lowpass := some q }
    | _ => Except.error (PyError.typeError "float expected")
  else if e.kind = FIFF.FIFF_HIGHPASS then do
    let tag ← read_tag fid e.pos
    match tag.data with
    | .float q => Except.ok { s with highpass := some q }
    | _ => Except.error (PyError.typeError "float expected")
  else if e.kind = FIFF.FIFF_MEAS_DATE then do
    let tag ← read_tag fid e.pos
    match tag.data with
    | .int n => Except.ok { s with meas_date := some n }
    | _ => Except.error (PyError.typeError "int expected")
  else if e.kind = FIFF.FIFF_COORD_TRANS then do
    let tag ← read_tag fid e.pos
    match tag.data with
    | .coordTrans cand => Except.ok (classify_trans s cand)
    | _ => Except.error (PyError.typeError "coord trans expected")
  else Except.ok s

/-- The single pass over the info block's tag directory. -/
def scan_info (fid : List Tag) (mi : TreeNode) : Except PyError ScanState :=
  mi.directory.foldlM (scan_entry fid) {}

/-- One step of the HPI-result fallback scan: only coordinate-transform tags
are examined (meas_info.py lines 115-126). -/
def hpi_entry (fid : List Tag) (s : ScanState) (e : DirEntry) :
    Except PyError ScanState :=
  if e.kind = FIFF.FIFF_COORD_TRANS then do
    let tag ← read_tag fid e.pos
    match tag.data with
    | .coordTrans cand => Except.ok (classify_trans s cand)
    | _ => Except.error (PyError.typeError "coord trans expected")
  else Except.ok s

/-- The HPI-result fallback of read_meas_info (lines 111-126): when either
head transform is still missing and there is exactly one HPI-result block,
its directory is scanned for coordinate transforms. -/
def hpi_fallback (fid : List Tag) (mi : TreeNode) (s : ScanState) :
    Except PyError ScanState :=
  if s.dev_head_t.isNone || s.ctf_head_t.isNone then
    match dir_tree_find mi FIFF.FIFFB_HPI_RESULT with
    | [hpi] => hpi.directory.foldlM (hpi_entry fid) s
    | _ => Except.ok s
  else Except.ok s

/-- The digitization-point collection loop over an isotrak block's directory
(meas_info.py lines 140-146): every dig-point tag, in file order, with its
coordinate frame set to the head frame. -/
def collect_dig (fid : List Tag) (iso : TreeNode) :
    Except PyError (List DigPoint) :=
  iso.directory.foldlM (fun dig e =>
    if e.kind = FIFF.FIFF_DIG_POINT then do
      let tag ← read_tag fid e.pos
      match tag.data with
      | .digPoint d =>
          Except.ok (dig ++ [{ d with coord_frame := FIFF.FIFFV_COORD_HEAD }])
      | _ => Except.error (PyError.typeError "dig point expected")
    else Except.ok dig) []

/-- The isotrak phase of read_meas_info (lines 128-146).  An empty find list
raises; otherwise the FIRST found block is taken (the multiple-isotrak raise
of line 136 sits in the empty-list else branch and is unreachable), and the
collection loop is guarded by len(isotrak) == 1 where isotrak is by then the
node itself, whose dict len (TreeNode.pyLen) is never 1. -/
def isotrak_phase (fid : List Tag) (mi : TreeNode) :
    Except PyError (List DigPoint) :=
  match dir_tree_find mi FIFF.FIFFB_ISOTRAK with
  | [] => Except.error (PyError.valueError "Isotrak not found")
  | iso0 :: _ =>
      if TreeNode.pyLen iso0 = 1 then collect_dig fid iso0
      else Except.ok []

/-- The acquisition-parameters phase of read_meas_info (lines 148-162):
exactly one DACQ-pars block is scanned for the two string tags, any other
cardinality leaves both unset. -/
def acq_phase (fid : List Tag) (mi : TreeNode) :
    Except PyError (Option String × Option String) :=
  match dir_tree_find mi FIFF.FIFFB_DACQ_PARS with
  | [acq] =>
      acq.directory.foldlM (fun (st : Option String × Option String) e =>
        if e.kind = FIFF.FIFF_DACQ_PARS then do
          let tag ← read_tag fid e.pos
          match tag.data with
          | .str s => Except.ok (some s, st.2)
          | _ => Except.error (PyError.typeError "string expected")
        else if e.kind = FIFF.FIFF_DACQ_STIM then do
          let tag ← read_tag fid e.pos
          match tag.data with
          | .str s => Except.ok (st.1, some s)
          | _ => Except.error (PyError.typeError "string expected")
        else Except.ok st) (none, none)
  | _ => Except.ok (none, none)

/-- The measurement-id selection of read_meas_info (the nested if-None chain
of lines 182-194). -/
def select_meas_id (mi meas : TreeNode) (file_id : Option FiffId) :
    Option FiffId :=
  match mi.parent_id with
  | some pid => some pid
  | none =>
      match mi.id with
      | some iid => some iid
      | none =>
          match meas.id with
          | some mid => some mid
          | none =>
              match meas.parent_id with
              | some mpid => some mpid
              | none => file_id

/-- The measurement date stored in the info record: the tag value when the
tag was seen, otherwise the (secs, usecs) of the measurement id. -/
inductive MeasDate where
  | tagVal (v : Int)
  | fromId (secs usecs : Int)
deriving DecidableEq, Repr

/-- The measurement-info record assembled by read_meas_info. -/
structure Info where
  file_id : Option FiffId
  meas_id : Option FiffId
  meas_date : MeasDate
  nchan : Int
  sfreq : ℚ
  highpass : ℚ
  lowpass : ℚ
  chs : List ChInfo
  ch_names : List String
  dev_head_t : Option CoordTrans
  ctf_head_t : Option CoordTrans
  dev_ctf_t : Option CoordTrans
  dig : List DigPoint
  bads : List String
  projs : List TreeNode
  comps : List CompData
  acq_pars : Option String
  acq_stim : Option String

/-- np.inv, the matrix inverse: the executable nonsingular-inverse formula.
matInv_eq_inv below shows it is exactly Mathlib's matrix inverse. -/
def matInv (A : Matrix (Fin 4) (Fin 4) ℚ) : Matrix (Fin 4) (Fin 4) ℚ :=
  (A.det)⁻¹ • A.adjugate

/-- The device-to-CTF computation of read_meas_info (lines 214-222): when
both transforms are present, the dev_head_t dict is assigned to the
dev_ctf_t key and then its to and trans entries are updated in place, so in
Python both keys end up holding one and the same mutated dict; the embedding
therefore stores the updated record under both fields.  The empty-list
dev_ctf_t of line 222 is modelled as none.  Returns the final
(dev_head_t, dev_ctf_t) pair. -/
def dev_ctf_pair (dev0 ctf0 : Option CoordTrans) :
    Option CoordTrans × Option CoordTrans :=
  match dev0, ctf0 with
  | some dev, some ctf =>
      let upd : CoordTrans :=
        { dev with to_ := ctf.from_, trans := matInv ctf.trans * dev.trans }
      (some upd, some upd)
  | d, _ => (d, none)

/-- The put-the-data-together phase of read_meas_info (lines 173-230). -/
def assemble_info (tree meas mi : TreeNode) (s : ScanState) (nchan : Int)
    (sfreq : ℚ) (dig : List DigPoint) (acq_pars acq_stim : Option String)
    (projs : List TreeNode) (comps : List CompData) (bads : List String) :
    Except PyError Info := do
  let file_id := tree.id
  let meas_id := select_meas_id mi meas file_id
  let meas_date ← match s.meas_date with
    | some d => Except.ok (MeasDate.tagVal d)
    | none =>
        match meas_id with
        | some mid => Except.ok (MeasDate.fromId mid.secs mid.usecs)
        | none => Except.error (PyError.typeError "NoneType is not subscriptable")
  let highpass := s.highpass.getD 0
  let lowpass := s.lowpass.getD (sfreq / 2)
  let p := dev_ctf_pair s.dev_head_t s.ctf_head_t
  return { file_id := file_id, meas_id := meas_id, meas_date := meas_date,
           nchan := nchan, sfreq := sfreq, highpass := highpass,
           lowpass := lowpass, chs := s.chs,
           ch_names := s.chs.map (fun c => c.ch_name),
           dev_head_t := p.1, ctf_head_t := s.ctf_head_t,
           dev_ctf_t := p.2, dig := dig, bads := bads, projs := projs,
           comps := comps, acq_pars := acq_pars, acq_stim := acq_stim }

/-- The part of read_meas_info after the measurement and info blocks have
been located (meas_info.py lines 56-232). -/
def read_meas_info_body (fid : List Tag) (tree meas mi : TreeNode) :
    Except PyError (Info × TreeNode) := do
  let s0 ← scan_info fid mi
  let nchan ← match s0.nchan with
    | none => Except.error (PyError.valueError "Number of channels in not defined")
    | some n => Except.ok n
  let sfreq ← match s0.sfreq with
    | none => Except.error (PyError.valueError "Sampling frequency is not defined")
    | some q => Except.ok q
  if s0.chs.length = 0 then
    Except.error (PyError.valueError "Channel information not defined")
  else if (s0.chs.length : Int) ≠ nchan then
    Except.error (PyError.valueError "Incorrect number of channel definitions found")
  else do
    let s ← hpi_fallback fid mi s0
    let dig ← isotrak_phase fid mi
    let acq ← acq_phase fid mi
    let projs ← read_proj fid mi
    let comps ← read_ctf_comp fid mi s.chs
    let bads ← read_bad_channels fid mi
    let info ← assemble_info tree meas mi s nchan sfreq dig acq.1 acq.2
      projs comps bads
    return (info, meas)

/-- read_meas_info of meas_info.py: exactly one measurement block and exactly
one info sub-block are required (lines 42-54), then the body runs. -/
def read_meas_info (fid : List Tag) (tree : TreeNode) :
    Except PyError (Info × TreeNode) :=
  match dir_tree_find tree FIFF.FIFFB_MEAS with
  | [] => Except.error (PyError.valueError "Could not find measurement data")
  | _ :: _ :: _ =>
      Except.error (PyError.valueError "Cannot read more that 1 measurement data")
  | [meas] =>
      match dir_tree_find meas FIFF.FIFFB_MEAS_INFO with
      | [] => Except.error (PyError.valueError "Could not find measurement info")
      | _ :: _ :: _ =>
          Except.error (PyError.valueError "Cannot read more that 1 measurement info")
      | [mi] => read_meas_info_body fid tree meas mi

/-
Concrete test streams used to evaluate the readers on explicit inputs.
-/

/-- Two channels: A with range 2 and cal 3, B with range 5 and cal 7. -/
def chsAB : List ChInfo := [⟨"A", 2, 3⟩, ⟨"B", 5, 7⟩]

/-- Stream for the count-as-index evaluation: a 1x1 compensation matrix
[[35]] with row name A and column name B, kind magic 0x47314252, no
calibrated tag. -/
def fidC1 : List Tag :=
  [⟨FIFF.FIFF_MNE_CTF_COMP_DATA, .matrix [[35]]⟩,
   ⟨FIFF.FIFF_MNE_ROW_NAMES, .str "A"⟩,
   ⟨FIFF.FIFF_MNE_COL_NAMES, .str "B"⟩,
   ⟨FIFF.FIFF_MNE_CTF_COMP_KIND, .int 0x47314252⟩]

def nmC1 : TreeNode :=
  .mk FIFF.FIFFB_MNE_NAMED_MATRIX none none
    [⟨FIFF.FIFF_MNE_CTF_COMP_DATA, 0⟩, ⟨FIFF.FIFF_MNE_ROW_NAMES, 1⟩,
     ⟨FIFF.FIFF_MNE_COL_NAMES, 2⟩] []

def compC1 : TreeNode :=
  .mk FIFF.FIFFB_MNE_CTF_COMP_DATA none none
    [⟨FIFF.FIFF_MNE_CTF_COMP_KIND, 3⟩] [nmC1]

/-- Stream whose compensation matrix has row name Z, matching no channel. -/
def fidC2 : List Tag :=
  [⟨FIFF.FIFF_MNE_CTF_COMP_DATA, .matrix [[1]]⟩,
   ⟨FIFF.FIFF_MNE_ROW_NAMES, .str "Z"⟩,
   ⟨FIFF.FIFF_MNE_COL_NAMES, .str "A"⟩,
   ⟨FIFF.FIFF_MNE_CTF_COMP_KIND, .int 0x47314252⟩]

def nmC2 : TreeNode :=
  .mk FIFF.FIFFB_MNE_NAMED_MATRIX none none
    [⟨FIFF.FIFF_MNE_CTF_COMP_DATA, 0⟩, ⟨FIFF.FIFF_MNE_ROW_NAMES, 1⟩,
     ⟨FIFF.FIFF_MNE_COL_NAMES, 2⟩] []

def compC2 : TreeNode :=
  .mk FIFF.FIFFB_MNE_CTF_COMP_DATA none none
    [⟨FIFF.FIFF_MNE_CTF_COMP_KIND, 3⟩] [nmC2]

/-- Stream with a calibrated compensation matrix (calibrated tag 1). -/
def fidC10 : List Tag :=
  [⟨FIFF.FIFF_MNE_CTF_COMP_DATA, .matrix [[4, 0], [0, 4]]⟩,
   ⟨FIFF.FIFF_MNE_ROW_NAMES, .str "A:B"⟩,
   ⟨FIFF.FIFF_MNE_COL_NAMES, .str "A:B"⟩,
   ⟨FIFF.FIFF_MNE_CTF_COMP_KIND, .int 0x47324252⟩,
   ⟨FIFF.FIFF_MNE_CTF_COMP_CALIBRATED, .int 1⟩]

def nmC10 : TreeNode :=
  .mk FIFF.FIFFB_MNE_NAMED_MATRIX none none
    [⟨FIFF.FIFF_MNE_CTF_COMP_DATA, 0⟩, ⟨FIFF.FIFF_MNE_ROW_NAMES, 1⟩,
     ⟨FIFF.FIFF_MNE_COL_NAMES, 2⟩] []

def compC10 : TreeNode :=
  .mk FIFF.FIFFB_MNE_CTF_COMP_DATA none none
    [⟨FIFF.FIFF_MNE_CTF_COMP_KIND, 3⟩, ⟨FIFF.FIFF_MNE_CTF_COMP_CALIBRATED, 4⟩]
    [nmC10]

/-- The named matrix decoded from fidC10. -/
def matC10 : NamedMatrix :=
  { nrow := 2, ncol := 2, row_names := some ["A", "B"],
    col_names := some ["A", "B"], data := [[4, 0], [0, 4]] }

/-- A named-matrix node whose NROW and NCOL tags match the 1x2 data. -/
def fidC5 : List Tag :=
  [⟨FIFF.FIFF_MNE_CTF_COMP_DATA, .matrix [[3, 4]]⟩,
   ⟨FIFF.FIFF_MNE_NROW, .int 1⟩,
   ⟨FIFF.FIFF_MNE_NCOL, .int 2⟩]

def nodeC5 : TreeNode :=
  .mk FIFF.FIFFB_MNE_NAMED_MATRIX none none
    [⟨FIFF.FIFF_MNE_CTF_COMP_DATA, 0⟩, ⟨FIFF.FIFF_MNE_NROW, 1⟩,
     ⟨FIFF.FIFF_MNE_NCOL, 2⟩] []

/-- Channels and tags of the two-channel measurement scenario: nchan 2,
sample rate 600, two channel records, one dig point and the two head
transforms (device to head and CTF-head to head, both with unit matrix). -/
def chM1 : ChInfo := ⟨"MEG 001", 1, 1⟩

def chM2 : ChInfo := ⟨"MEG 002", 1, 1⟩

def devT : CoordTrans :=
  { from_ := FIFF.FIFFV_COORD_DEVICE, to_ := FIFF.FIFFV_COORD_HEAD, trans := 1 }

def ctfT : CoordTrans :=
  { from_ := FIFF.FIFFV_MNE_COORD_CTF_HEAD, to_ := FIFF.FIFFV_COORD_HEAD,
    trans := 1 }

def fidM : List Tag :=
  [⟨FIFF.FIFF_NCHAN, .int 2⟩,
   ⟨FIFF.FIFF_SFREQ, .float 600⟩,
   ⟨FIFF.FIFF_CH_INFO, .chInfo chM1⟩,
   ⟨FIFF.FIFF_CH_INFO, .chInfo chM2⟩,
   ⟨FIFF.FIFF_DIG_POINT, .digPoint ⟨1, 2, 0⟩⟩,
   ⟨FIFF.FIFF_COORD_TRANS, .coordTrans devT⟩,
   ⟨FIFF.FIFF_COORD_TRANS, .coordTrans ctfT⟩]

/-- An isotrak block with no tags. -/
def isoEmpty : TreeNode := .mk FIFF.FIFFB_ISOTRAK none none [] []

/-- An isotrak block holding one digitization-point tag. -/
def isoDig : TreeNode :=
  .mk FIFF.FIFFB_ISOTRAK none none [⟨FIFF.FIFF_DIG_POINT, 4⟩] []

/-- The basic four info-block directory entries of the scenario. -/
def dirM : List DirEntry :=
  [⟨FIFF.FIFF_NCHAN, 0⟩, ⟨FIFF.FIFF_SFREQ, 1⟩, ⟨FIFF.FIFF_CH_INFO, 2⟩,
   ⟨FIFF.FIFF_CH_INFO, 3⟩]

def miC8 : TreeNode := .mk FIFF.FIFFB_MEAS_INFO none none dirM [isoEmpty]

def measC8 : TreeNode := .mk FIFF.FIFFB_MEAS none none [] [miC8]

def treeC8 : TreeNode := .mk 0 (some ⟨100, 200⟩) none [] [measC8]

/-- The scenario as literally claimed: no isotrak sub-block at all. -/
def miC8n : TreeNode := .mk FIFF.FIFFB_MEAS_INFO none none dirM []

def measC8n : TreeNode := .mk FIFF.FIFFB_MEAS none none [] [miC8n]

def treeC8n : TreeNode := .mk 0 (some ⟨100, 200⟩) none [] [measC8n]

/-- Info block carrying both its own id and a parent id. -/
def miC3 : TreeNode :=
  .mk FIFF.FIFFB_MEAS_INFO (some ⟨1, 2⟩) (some ⟨5, 6⟩) dirM [isoEmpty]

def measC3 : TreeNode := .mk FIFF.FIFFB_MEAS none none [] [miC3]

def treeC3 : TreeNode := .mk 0 (some ⟨100, 200⟩) none [] [measC3]

/-- Info block with TWO isotrak sub-blocks, the first holding a dig point. -/
def miC6 : TreeNode := .mk FIFF.FIFFB_MEAS_INFO none none dirM [isoDig, isoEmpty]

def measC6 : TreeNode := .mk FIFF.FIFFB_MEAS none none [] [miC6]

def treeC6 : TreeNode := .mk 0 (some ⟨100, 200⟩) none [] [measC6]

/-- Info block whose directory also carries the two coordinate transforms. -/
def miC7 : TreeNode :=
  .mk FIFF.FIFFB_MEAS_INFO none none
    (dirM ++ [⟨FIFF.FIFF_COORD_TRANS, 5⟩, ⟨FIFF.FIFF_COORD_TRANS, 6⟩])
    [isoEmpty]

def measC7 : TreeNode := .mk FIFF.FIFFB_MEAS none none [] [miC7]

def treeC7 : TreeNode := .mk 0 (some ⟨100, 200⟩) none [] [measC7]

/-- The scan state produced by the directory scan of miC7. -/
def s0C7 : ScanState :=
  { dev_head_t := some devT, ctf_head_t := some ctfT, nchan := some 2,
    sfreq := some 600, chs := [chM1, chM2] }

/-- A tree with no measurement block at all. -/
def treeC4 : TreeNode := .mk 0 none none [] []

/-
Projections of read_meas_info results, used to state concrete evaluations.
-/

/-- The meas_id field of a successful read, none on error. -/
def measIdView (r : Except PyError (Info × TreeNode)) : Option (Option FiffId) :=
  match r with
  | .ok (i, _) => some i.meas_id
  | .error _ => none

/-- The dig field of a successful read, none on error. -/
def digView (r : Except PyError (Info × TreeNode)) : Option (List DigPoint) :=
  match r with
  | .ok (i, _) => some i.dig
  | .error _ => none

/-- The dev_ctf_t field of a successful read, none on error. -/
def devCtfView (r : Except PyError (Info × TreeNode)) :
    Option (Option CoordTrans) :=
  match r with
  | .ok (i, _) => some i.dev_ctf_t
  | .error _ => none

/-- The dev_head_t and dev_ctf_t fields of a successful read. -/
def headCtfView (r : Except PyError (Info × TreeNode)) :
    Option (Option CoordTrans × Option CoordTrans) :=
  match r with
  | .ok (i, _) => some (i.dev_head_t, i.dev_ctf_t)
  | .error _ => none

/-- The (nchan, sfreq, highpass, lowpass, bads) fields of a successful
read, none on error. -/
def scalarsView (r : Except PyError (Info × TreeNode)) :
    Option (Int × ℚ × ℚ × ℚ × List String) :=
  match r with
  | .ok (i, _) => some (i.nchan, i.sfreq, i.highpass, i.lowpass, i.bads)
  | .error _ => none

/-
Helper lemmas about the Except monad and the embedding.
-/

theorem ok_bind {α β : Type} (a : α) (f : α → Except PyError β) :
    (Except.ok a >>= f) = f a := rfl

theorem error_bind {α β : Type} (e : PyError) (f : α → Except PyError β) :
    ((Except.error e : Except PyError α) >>= f) = Except.error e := rfl

theorem mapM_singleton {α β : Type} (f : α → Except PyError β) (a : α) :
    List.mapM f [a] = f a >>= fun b => pure [b] := rfl

theorem mapM_nil {α β : Type} (f : α → Except PyError β) :
    List.mapM f [] = pure [] := rfl

/-- The executable inverse used in the embedding is Mathlib's matrix
inverse. -/
theorem matInv_eq_inv (A : Matrix (Fin 4) (Fin 4) ℚ) : matInv A = A⁻¹ := by
  rw [matInv, Matrix.inv_def, Ring.inverse_eq_inv]

/-- The nested if-None chain of the measurement-id selection is the
first-non-null fallback chain info parent id, info id, meas id, meas parent
id, file id. -/
theorem select_meas_id_eq_or (mi meas : TreeNode) (file_id : Option FiffId) :
    select_meas_id mi meas file_id =
      (mi.parent_id.or (mi.id.or (meas.id.or (meas.parent_id.or file_id)))) := by
  unfold select_meas_id
  cases mi.parent_id <;> cases mi.id <;> cases meas.id <;>
    cases meas.parent_id <;> simp [Option.or]

/-
Claim theorems.
-/

set_option maxHeartbeats 2000000 in
/-- C1: evaluation of read_ctf_comp at a stream with channels A (range 2,
cal 3) and B (range 5, cal 7), a 1x1 uncalibrated matrix [[35]], row name A
and column name B.  The row scale is looked up at chs[p] where p is the
match COUNT (always 1), so B's range.cal = 35 is used instead of the
matching channel A's 2.3 = 6: rowcals is [35], not [6], and the returned
data is [[35]], not [[6]] as the claimed diagonal identity over matching
channels would give. -/
theorem read_ctf_comp_count_index_eval :
    read_ctf_comp fidC1 compC1 chsAB =
      .ok [{ ctfkind := 0x47314252, kind := 1, save_calibrated := false,
             rowcals := [35], colcals := [1/35],
             data := { nrow := 1, ncol := 1, row_names := some ["A"],
                       col_names := some ["B"], data := [[35]] } }] ∧
    (35 : ℚ) ≠ 2 * 3 := by
  refine ⟨?_, by norm_num⟩
  norm_num [read_ctf_comp, read_one_comp, read_named_matrix,
    resolve_matrix_node, find_tag, find_in_dir, read_tag, has_tag,
    dir_tree_find, dir_tree_find_list, fidC1, compC1, nmC1, chsAB,
    FIFF.FIFFB_MNE_CTF_COMP_DATA, FIFF.FIFFB_MNE_NAMED_MATRIX,
    FIFF.FIFF_MNE_CTF_COMP_DATA, FIFF.FIFF_MNE_ROW_NAMES,
    FIFF.FIFF_MNE_COL_NAMES, FIFF.FIFF_MNE_NROW, FIFF.FIFF_MNE_NCOL,
    FIFF.FIFF_MNE_CTF_COMP_KIND, FIFF.FIFF_MNE_CTF_COMP_CALIBRATED,
    List.mapM, List.mapM.loop, List.find?, List.foldlM,
    ok_bind, error_bind, py_split, splitChars,
    read_matrix_data, check_dim, read_names, tag_ne_int,
    normalize_comp_kind, ctf_col_cals, ctf_row_cals, shape0, shape1,
    List.range, List.range.loop, List.count, matMulL, diagL, dotL,
    transposeL, List.enum, List.enumFrom, TreeNode.block,
    TreeNode.children, TreeNode.directory]
  simp
  norm_num [ok_bind]

set_option maxHeartbeats 2000000 in
/-- C2: evaluation of read_ctf_comp at a stream whose compensation matrix
has row name Z matching zero channels.  The raise of ctf.py line 157 passes
the row name in the traceback slot of the three-expression raise statement,
so the resulting error message is the unformatted format string and does not
name the offending channel Z. -/
theorem read_ctf_comp_row_error_eval :
    read_ctf_comp fidC2 compC2 chsAB =
      .error (.valueError "Channel %s is not available in data") := by
  norm_num [read_ctf_comp, read_one_comp, read_named_matrix,
    resolve_matrix_node, find_tag, find_in_dir, read_tag, has_tag,
    dir_tree_find, dir_tree_find_list, fidC2, compC2, nmC2, chsAB,
    FIFF.FIFFB_MNE_CTF_COMP_DATA, FIFF.FIFFB_MNE_NAMED_MATRIX,
    FIFF.FIFF_MNE_CTF_COMP_DATA, FIFF.FIFF_MNE_ROW_NAMES,
    FIFF.FIFF_MNE_COL_NAMES, FIFF.FIFF_MNE_NROW, FIFF.FIFF_MNE_NCOL,
    FIFF.FIFF_MNE_CTF_COMP_KIND, FIFF.FIFF_MNE_CTF_COMP_CALIBRATED,
    List.mapM, List.mapM.loop, List.find?, List.foldlM,
    ok_bind, error_bind, py_split, splitChars,
    read_matrix_data, check_dim, read_names, tag_ne_int,
    normalize_comp_kind, ctf_col_cals, ctf_row_cals, shape0, shape1,
    List.range, List.range.loop, List.count, matMulL, diagL, dotL,
    transposeL, List.enum, List.enumFrom, TreeNode.block,
    TreeNode.children, TreeNode.directory]
  simp
  norm_num [ok_bind]

/-- C10: for every compensation block whose calibrated tag is present and
truthy, read_ctf_comp returns the named matrix exactly as decoded, with no
diagonal scaling, and rowcals and colcals set to all-ones vectors of the
data's row and column counts. -/
theorem read_ctf_comp_calibrated (fid : List Tag) (node cnode : TreeNode)
    (chs : List ChInfo) (mat : NamedMatrix) (ek ec : DirEntry) (tk tc : Tag)
    (k c : Int)
    (h1 : dir_tree_find node FIFF.FIFFB_MNE_CTF_COMP_DATA = [cnode])
    (h2 : read_named_matrix fid cnode FIFF.FIFF_MNE_CTF_COMP_DATA = .ok mat)
    (h3 : find_in_dir cnode FIFF.FIFF_MNE_CTF_COMP_KIND = some ek)
    (h4 : read_tag fid ek.pos = .ok tk) (h5 : tk.data = .int k)
    (h6 : find_in_dir cnode FIFF.FIFF_MNE_CTF_COMP_CALIBRATED = some ec)
    (h7 : read_tag fid ec.pos = .ok tc) (h8 : tc.data = .int c) (h9 : c ≠ 0) :
    read_ctf_comp fid node chs =
      .ok [{ ctfkind := k, kind := normalize_comp_kind k,
             save_calibrated := true,
             rowcals := List.replicate (shape0 mat.data) 1,
             colcals := List.replicate (shape1 mat.data) 1, data := mat }] := by
  have hc : (c != 0) = true := by simpa using h9
  simp only [read_ctf_comp, h1, mapM_singleton, read_one_comp, h2, h3, h4,
    h5, h6, h7, h8, ok_bind, hc, if_true]
  rfl

/-- Witness: the calibrated theorem applied to the concrete calibrated
stream fidC10. -/
theorem read_ctf_comp_calibrated_witness :
    read_ctf_comp fidC10 compC10 chsAB =
      .ok [{ ctfkind := 0x47324252, kind := normalize_comp_kind 0x47324252,
             save_calibrated := true,
             rowcals := List.replicate (shape0 matC10.data) 1,
             colcals := List.replicate (shape1 matC10.data) 1,
             data := matC10 }] :=
  read_ctf_comp_calibrated fidC10 compC10 compC10 chsAB matC10
    ⟨FIFF.FIFF_MNE_CTF_COMP_KIND, 3⟩ ⟨FIFF.FIFF_MNE_CTF_COMP_CALIBRATED, 4⟩
    ⟨FIFF.FIFF_MNE_CTF_COMP_KIND, .int 0x47324252⟩
    ⟨FIFF.FIFF_MNE_CTF_COMP_CALIBRATED, .int 1⟩ 0x47324252 1
    rfl rfl rfl rfl rfl rfl rfl rfl (by decide)

/-- A passed dimension check with the count tag present means the tag's value
equals the dimension (in the loose Python 2 comparison). -/
theorem check_dim_present {fid : List Tag} {nd : TreeNode} {k : Int} {n : Nat}
    {msg : String} (h : check_dim fid nd k n msg = .ok ()) :
    ∀ t, find_tag fid nd k = .ok (some t) →
      tag_ne_int t.data (n : Int) = false := by
  intro t ht
  simp only [check_dim, ht, ok_bind] at h
  cases hb : tag_ne_int t.data (n : Int) with
  | true => rw [hb] at h; simp at h
  | false => rfl

/-- An absent count tag makes the dimension check a no-op. -/
theorem check_dim_of_none {fid : List Tag} {nd : TreeNode} {k : Int} {n : Nat}
    {msg : String} (h : find_tag fid nd k = .ok none) :
    check_dim fid nd k n msg = .ok () := by
  simp [check_dim, h, ok_bind]

/-- A present count tag that disagrees with the dimension raises the
mismatch error. -/
theorem check_dim_of_mismatch {fid : List Tag} {nd : TreeNode} {k : Int}
    {n : Nat} {msg : String} {t : Tag} (ht : find_tag fid nd k = .ok (some t))
    (hb : tag_ne_int t.data (n : Int) = true) :
    check_dim fid nd k n msg = .error (.valueError msg) := by
  simp [check_dim, ht, ok_bind, hb]

/-- An absent name tag reads as None. -/
theorem read_names_of_none {fid : List Tag} {nd : TreeNode} {k : Int}
    (h : find_tag fid nd k = .ok none) : read_names fid nd k = .ok none := by
  simp [read_names, h, ok_bind]

/-- Anatomy of a successful read_named_matrix: the node resolved, the data
tag decoded to a matrix that fills the record, and both dimension checks
passed. -/
theorem read_named_matrix_ok_parts {fid : List Tag} {node0 : TreeNode}
    {matkind : Int} {mat : NamedMatrix}
    (h : read_named_matrix fid node0 matkind = .ok mat) :
    ∃ nd d, resolve_matrix_node node0 matkind = .ok nd ∧
      read_matrix_data fid nd matkind = .ok d ∧
      mat.nrow = shape0 d ∧ mat.ncol = shape1 d ∧ mat.data = d ∧
      check_dim fid nd FIFF.FIFF_MNE_NROW (shape0 d)
        "Number of rows in matrix data and FIFF_MNE_NROW tag do not match" =
        .ok () ∧
      check_dim fid nd FIFF.FIFF_MNE_NCOL (shape1 d)
        "Number of columns in matrix data and FIFF_MNE_NCOL tag do not match" =
        .ok () := by
  simp only [read_named_matrix] at h
  cases hres : resolve_matrix_node node0 matkind with
  | error e => rw [hres] at h; simp [error_bind] at h
  | ok nd =>
  rw [hres, ok_bind] at h
  cases hd : read_matrix_data fid nd matkind with
  | error e => rw [hd] at h; simp [error_bind] at h
  | ok d =>
  rw [hd, ok_bind] at h
  cases h1 : check_dim fid nd FIFF.FIFF_MNE_NROW (shape0 d)
      "Number of rows in matrix data and FIFF_MNE_NROW tag do not match" with
  | error e => rw [h1] at h; simp [error_bind] at h
  | ok u =>
  cases u
  rw [h1, ok_bind] at h
  cases h2 : check_dim fid nd FIFF.FIFF_MNE_NCOL (shape1 d)
      "Number of columns in matrix data and FIFF_MNE_NCOL tag do not match" with
  | error e => rw [h2] at h; simp [error_bind] at h
  | ok u =>
  cases u
  rw [h2, ok_bind] at h
  cases h3 : read_names fid nd FIFF.FIFF_MNE_ROW_NAMES with
  | error e => rw [h3] at h; simp [error_bind] at h
  | ok rn =>
  rw [h3, ok_bind] at h
  cases h4 : read_names fid nd FIFF.FIFF_MNE_COL_NAMES with
  | error e => rw [h4] at h; simp [error_bind] at h
  | ok cn =>
  rw [h4, ok_bind] at h
  simp only [pure, Except.pure, Except.ok.injEq] at h
  subst h
  exact ⟨nd, d, rfl, hd, rfl, rfl, rfl, h1, h2⟩

/-- C5: for every named matrix read by read_named_matrix, a present
row-count (resp. column-count) tag's value equals the decoded data's row
(resp. column) count; a mismatch raises the dimension ValueError; absent
count tags are not checked at all (the read succeeds whatever the shape
is). -/
theorem read_named_matrix_count_tags (fid : List Tag) (node0 nd : TreeNode)
    (matkind : Int) (hres : resolve_matrix_node node0 matkind = .ok nd) :
    (∀ mat t, read_named_matrix fid node0 matkind = .ok mat →
       find_tag fid nd FIFF.FIFF_MNE_NROW = .ok (some t) →
       tag_ne_int t.data (mat.nrow : Int) = false) ∧
    (∀ mat t, read_named_matrix fid node0 matkind = .ok mat →
       find_tag fid nd FIFF.FIFF_MNE_NCOL = .ok (some t) →
       tag_ne_int t.data (mat.ncol : Int) = false) ∧
    (∀ d t, read_matrix_data fid nd matkind = .ok d →
       find_tag fid nd FIFF.FIFF_MNE_NROW = .ok (some t) →
       tag_ne_int t.data (shape0 d : Int) = true →
       read_named_matrix fid node0 matkind = .error (.valueError
         "Number of rows in matrix data and FIFF_MNE_NROW tag do not match")) ∧
    (∀ d t, read_matrix_data fid nd matkind = .ok d →
       find_tag fid nd FIFF.FIFF_MNE_NROW = .ok none →
       find_tag fid nd FIFF.FIFF_MNE_NCOL = .ok (some t) →
       tag_ne_int t.data (shape1 d : Int) = true →
       read_named_matrix fid node0 matkind = .error (.valueError
         "Number of columns in matrix data and FIFF_MNE_NCOL tag do not match")) ∧
    (∀ d, read_matrix_data fid nd matkind = .ok d →
       find_tag fid nd FIFF.FIFF_MNE_NROW = .ok none →
       find_tag fid nd FIFF.FIFF_MNE_NCOL = .ok none →
       find_tag fid nd FIFF.FIFF_MNE_ROW_NAMES = .ok none →
       find_tag fid nd FIFF.FIFF_MNE_COL_NAMES = .ok none →
       read_named_matrix fid node0 matkind =
         .ok { nrow := shape0 d, ncol := shape1 d, row_names := none,
               col_names := none, data := d }) := by
  refine ⟨?_, ?_, ?_, ?_, ?_⟩
  · intro mat t h ht
    obtain ⟨nd', d, hres', hd, hn, hc, hdat, h1, h2⟩ :=
      read_named_matrix_ok_parts h
    rw [hres] at hres'
    cases hres'
    rw [hn]
    exact check_dim_present h1 t ht
  · intro mat t h ht
    obtain ⟨nd', d, hres', hd, hn, hc, hdat, h1, h2⟩ :=
      read_named_matrix_ok_parts h
    rw [hres] at hres'
    cases hres'
    rw [hc]
    exact check_dim_present h2 t ht
  · intro d t hd ht hb
    simp only [read_named_matrix, hres, ok_bind, hd,
      check_dim_of_mismatch ht hb, error_bind]
  · intro d t hd hrn ht hb
    simp only [read_named_matrix, hres, ok_bind, hd,
      check_dim_of_none hrn, check_dim_of_mismatch ht hb, error_bind]
  · intro d hd h1 h2 h3 h4
    simp only [read_named_matrix, hres, ok_bind, hd,
      check_dim_of_none h1, check_dim_of_none h2,
      read_names_of_none h3, read_names_of_none h4]
    rfl

/-- Witness: the count-check theorem applied to the concrete node nodeC5
whose NROW tag (value 1) matches the 1x2 data. -/
theorem read_named_matrix_count_tags_witness :
    tag_ne_int (TagData.int 1) ((1 : Nat) : Int) = false :=
  (read_named_matrix_count_tags fidC5 nodeC5 nodeC5
      FIFF.FIFF_MNE_CTF_COMP_DATA rfl).1
    { nrow := 1, ncol := 2, row_names := none, col_names := none,
      data := [[3, 4]] }
    ⟨FIFF.FIFF_MNE_NROW, .int 1⟩ rfl rfl

/-- Anatomy of a successful read_meas_info body: every phase succeeded and
the info record is the one assembled from the phase results. -/
theorem read_meas_info_body_ok {fid : List Tag} {tree meas mi : TreeNode}
    {r : Info × TreeNode} (h : read_meas_info_body fid tree meas mi = .ok r) :
    ∃ s0 nchan sfreq s dig acq projs comps bads info,
      scan_info fid mi = .ok s0 ∧ s0.nchan = some nchan ∧
      s0.sfreq = some sfreq ∧ hpi_fallback fid mi s0 = .ok s ∧
      isotrak_phase fid mi = .ok dig ∧ acq_phase fid mi = .ok acq ∧
      read_proj fid mi = .ok projs ∧ read_ctf_comp fid mi s.chs = .ok comps ∧
      read_bad_channels fid mi = .ok bads ∧
      assemble_info tree meas mi s nchan sfreq dig acq.1 acq.2 projs comps
        bads = .ok info ∧ r = (info, meas) := by
  simp only [read_meas_info_body] at h
  cases h0 : scan_info fid mi with
  | error e => rw [h0] at h; simp [error_bind] at h
  | ok s0 =>
  rw [h0, ok_bind] at h
  cases hn : s0.nchan with
  | none => rw [hn] at h; simp [error_bind] at h
  | some nchan =>
  rw [hn] at h
  simp only [ok_bind] at h
  cases hf : s0.sfreq with
  | none => rw [hf] at h; simp [error_bind] at h
  | some sfreq =>
  rw [hf] at h
  simp only [ok_bind] at h
  split at h
  · simp at h
  split at h
  · simp at h
  cases h4 : hpi_fallback fid mi s0 with
  | error e => rw [h4] at h; simp [error_bind] at h
  | ok s =>
  rw [h4, ok_bind] at h
  cases h5 : isotrak_phase fid mi with
  | error e => rw [h5] at h; simp [error_bind] at h
  | ok dig =>
  rw [h5, ok_bind] at h
  cases h6 : acq_phase fid mi with
  | error e => rw [h6] at h; simp [error_bind] at h
  | ok acq =>
  rw [h6, ok_bind] at h
  cases h7 : read_proj fid mi with
  | error e => rw [h7] at h; simp [error_bind] at h
  | ok projs =>
  rw [h7, ok_bind] at h
  cases h8 : read_ctf_comp fid mi s.chs with
  | error e => rw [h8] at h; simp [error_bind] at h
  | ok comps =>
  rw [h8, ok_bind] at h
  cases h9 : read_bad_channels fid mi with
  | error e => rw [h9] at h; simp [error_bind] at h
  | ok bads =>
  rw [h9, ok_bind] at h
  cases h10 : assemble_info tree meas mi s nchan sfreq dig acq.1 acq.2 projs
      comps bads with
  | error e => rw [h10] at h; simp [error_bind] at h
  | ok info =>
  rw [h10, ok_bind] at h
  simp only [pure, Except.pure, Except.ok.injEq] at h
  exact ⟨s0, nchan, sfreq, s, dig, acq, projs, comps, bads, info, rfl, hn,
    hf, h4, rfl, rfl, rfl, h8, rfl, h10, h.symm⟩

/-- The fields of the info record assembled by assemble_info. -/
theorem assemble_info_fields {tree meas mi : TreeNode} {s : ScanState}
    {nchan : Int} {sfreq : ℚ} {dig : List DigPoint}
    {acq_pars acq_stim : Option String} {projs : List TreeNode}
    {comps : List CompData} {bads : List String} {info : Info}
    (h : assemble_info tree meas mi s nchan sfreq dig acq_pars acq_stim projs
      comps bads = .ok info) :
    info.meas_id = select_meas_id mi meas tree.id ∧
    info.dev_head_t = (dev_ctf_pair s.dev_head_t s.ctf_head_t).1 ∧
    info.dev_ctf_t = (dev_ctf_pair s.dev_head_t s.ctf_head_t).2 ∧
    info.ctf_head_t = s.ctf_head_t ∧
    info.nchan = nchan ∧ info.sfreq = sfreq ∧
    info.highpass = s.highpass.getD 0 ∧
    info.lowpass = s.lowpass.getD (sfreq / 2) ∧
    info.chs = s.chs ∧ info.dig = dig ∧ info.bads = bads ∧
    info.comps = comps := by
  simp only [assemble_info] at h
  cases hmd : s.meas_date with
  | some d =>
      rw [hmd] at h
      simp only [ok_bind] at h
      simp only [pure, Except.pure, Except.ok.injEq] at h
      subst h
      exact ⟨rfl, rfl, rfl, rfl, rfl, rfl, rfl, rfl, rfl, rfl, rfl, rfl⟩
  | none =>
      rw [hmd] at h
      cases hmi : select_meas_id mi meas tree.id with
      | none => rw [hmi] at h; simp [error_bind] at h
      | some mid =>
          rw [hmi] at h
          simp only [ok_bind] at h
          simp only [pure, Except.pure, Except.ok.injEq] at h
          subst h
          exact ⟨hmi.symm ▸ rfl, rfl, rfl, rfl, rfl, rfl, rfl, rfl, rfl, rfl,
            rfl, rfl⟩

/-- Pair lemma: with both transforms present, dev_head_t and dev_ctf_t are
one and the same updated record. -/
theorem dev_ctf_pair_both (dev ctf : CoordTrans) :
    dev_ctf_pair (some dev) (some ctf) =
      (some { dev with to_ := ctf.from_,
                       trans := matInv ctf.trans * dev.trans },
       some { dev with to_ := ctf.from_,
                       trans := matInv ctf.trans * dev.trans }) := rfl

/-- Pair lemma: with either transform absent, dev_ctf_t is the empty value
and dev_head_t is left as scanned. -/
theorem dev_ctf_pair_absent (dev0 ctf0 : Option CoordTrans)
    (h : dev0 = none ∨ ctf0 = none) :
    (dev_ctf_pair dev0 ctf0).2 = none := by
  rcases h with h | h
  · subst h; cases ctf0 <;> rfl
  · subst h; cases dev0 <;> rfl

/-- C4: read_meas_info requires exactly one measurement block and exactly
one info sub-block; zero or more than one of either raises the
corresponding ValueError, and in particular zero measurement blocks raise
the could-not-find-measurement-data error. -/
theorem read_meas_info_cardinality (fid : List Tag) (tree : TreeNode) :
    (dir_tree_find tree FIFF.FIFFB_MEAS = [] →
       read_meas_info fid tree =
         .error (.valueError "Could not find measurement data")) ∧
    (∀ m1 m2 rest, dir_tree_find tree FIFF.FIFFB_MEAS = m1 :: m2 :: rest →
       read_meas_info fid tree =
         .error (.valueError "Cannot read more that 1 measurement data")) ∧
    (∀ meas, dir_tree_find tree FIFF.FIFFB_MEAS = [meas] →
       dir_tree_find meas FIFF.FIFFB_MEAS_INFO = [] →
       read_meas_info fid tree =
         .error (.valueError "Could not find measurement info")) ∧
    (∀ meas i1 i2 rest, dir_tree_find tree FIFF.FIFFB_MEAS = [meas] →
       dir_tree_find meas FIFF.FIFFB_MEAS_INFO = i1 :: i2 :: rest →
       read_meas_info fid tree =
         .error (.valueError "Cannot read more that 1 measurement info")) := by
  refine ⟨?_, ?_, ?_, ?_⟩
  · intro h1; simp [read_meas_info, h1]
  · intro m1 m2 rest h1; simp [read_meas_info, h1]
  · intro meas h1 h2; simp [read_meas_info, h1, h2]
  · intro meas i1 i2 rest h1 h2; simp [read_meas_info, h1, h2]

/-- Witness: the cardinality theorem applied to the concrete empty tree,
which holds no measurement block. -/
theorem read_meas_info_cardinality_witness :
    read_meas_info [] treeC4 =
      .error (.valueError "Could not find measurement data") :=
  (read_meas_info_cardinality [] treeC4).1 rfl

/-- C3 counterexample: on the concrete stream whose info block has both its
own id (1, 2) and a parent id (5, 6), read_meas_info resolves meas_id to
the PARENT id (5, 6), not to the info-block id (1, 2) the claimed priority
order would give. -/
theorem read_meas_info_meas_id_counterexample :
    measIdView (read_meas_info fidM treeC3) = some (some ⟨5, 6⟩) ∧
    some (⟨5, 6⟩ : FiffId) ≠ some (⟨1, 2⟩ : FiffId) :=
  ⟨rfl, by decide⟩

/-- C3 (amended): read_meas_info resolves the measurement id as the first
non-null value in the order info-block PARENT id, info-block id,
measurement-block id, measurement-block parent id, file id. -/
theorem read_meas_info_meas_id_order (fid : List Tag)
    (tree meas mi : TreeNode) (info : Info) (m : TreeNode)
    (h1 : dir_tree_find tree FIFF.FIFFB_MEAS = [meas])
    (h2 : dir_tree_find meas FIFF.FIFFB_MEAS_INFO = [mi])
    (h : read_meas_info fid tree = .ok (info, m)) :
    info.meas_id =
      mi.parent_id.or (mi.id.or (meas.id.or (meas.parent_id.or tree.id))) := by
  simp only [read_meas_info, h1, h2] at h
  obtain ⟨s0, nchan, sfreq, s, dig, acq, projs, comps, bads, info', hscan,
    hn, hf, hfb, hiso, hacq, hproj, hcomp, hbad, hasm, heq⟩ :=
    read_meas_info_body_ok h
  have hinfo : info = info' := by
    have := congrArg Prod.fst heq
    simpa using this
  subst hinfo
  rw [(assemble_info_fields hasm).1, select_meas_id_eq_or]

/-- Witness: the amended meas-id theorem applied to the concrete stream
treeC3. -/
theorem read_meas_info_meas_id_order_witness :
    measIdView (read_meas_info fidM treeC3) =
      some (miC3.parent_id.or (miC3.id.or (measC3.id.or
        (measC3.parent_id.or treeC3.id)))) := by
  obtain ⟨⟨info, m⟩, hp⟩ : ∃ p, read_meas_info fidM treeC3 = .ok p := ⟨_, rfl⟩
  have h := read_meas_info_meas_id_order fidM treeC3 measC3 miC3 info m
    rfl rfl hp
  simp [measIdView, hp, h]

/-- C6: evaluation of read_meas_info at the concrete stream whose info block
holds TWO isotrak sub-blocks, the first containing a digitization point.
Contrary to the claim, no error is raised (the multiple-isotrak raise of
meas_info.py line 136 sits in the empty-list branch and is unreachable), and
no digitization point is collected either, because the collection loop is
guarded by len(isotrak) == 1 evaluated on the node dict itself. -/
theorem read_meas_info_multiple_isotrak_eval :
    dir_tree_find miC6 FIFF.FIFFB_ISOTRAK = [isoDig, isoEmpty] ∧
    digView (read_meas_info fidM treeC6) = some [] :=
  ⟨rfl, rfl⟩

/-- C7: when the scan (with HPI fallback) found both the device-to-head and
the CTF-head-to-head transforms, the returned dev_ctf_t transform holds the
matrix inverse of the CTF transform times the device-to-head matrix (and the
to field is rewritten to the CTF frame); when either transform is absent,
dev_ctf_t is the empty value. -/
theorem read_meas_info_dev_ctf (fid : List Tag) (tree meas mi : TreeNode)
    (s0 s : ScanState) (dev ctf : CoordTrans) (info : Info) (m : TreeNode)
    (h1 : dir_tree_find tree FIFF.FIFFB_MEAS = [meas])
    (h2 : dir_tree_find meas FIFF.FIFFB_MEAS_INFO = [mi])
    (h3 : scan_info fid mi = .ok s0)
    (h4 : hpi_fallback fid mi s0 = .ok s)
    (h : read_meas_info fid tree = .ok (info, m)) :
    (s.dev_head_t = some dev → s.ctf_head_t = some ctf →
       info.dev_ctf_t = some { from_ := dev.from_, to_ := ctf.from_,
                               trans := (ctf.trans)⁻¹ * dev.trans }) ∧
    ((s.dev_head_t = none ∨ s.ctf_head_t = none) →
       info.dev_ctf_t = none) := by
  simp only [read_meas_info, h1, h2] at h
  obtain ⟨s0', nchan, sfreq, s', dig, acq, projs, comps, bads, info', hscan,
    hn, hf, hfb, hiso, hacq, hproj, hcomp, hbad, hasm, heq⟩ :=
    read_meas_info_body_ok h
  rw [h3] at hscan
  cases hscan
  rw [h4] at hfb
  cases hfb
  have hinfo : info = info' := by
    have := congrArg Prod.fst heq
    simpa using this
  subst hinfo
  have hfields := assemble_info_fields hasm
  constructor
  · intro hd hc
    rw [hfields.2.2.1, hd, hc, dev_ctf_pair_both]
    rw [matInv_eq_inv]
  · intro habs
    rw [hfields.2.2.1]
    exact dev_ctf_pair_absent _ _ habs

/-- Witness: the dev_ctf theorem applied to the concrete stream treeC7 whose
info block carries both transforms. -/
theorem read_meas_info_dev_ctf_witness :
    devCtfView (read_meas_info fidM treeC7) =
      some (some { from_ := devT.from_, to_ := ctfT.from_,
                   trans := (ctfT.trans)⁻¹ * devT.trans }) := by
  obtain ⟨⟨info, m⟩, hp⟩ : ∃ p, read_meas_info fidM treeC7 = .ok p := ⟨_, rfl⟩
  have h := (read_meas_info_dev_ctf fidM treeC7 measC7 miC7 s0C7 s0C7
    devT ctfT info m rfl rfl rfl rfl hp).1 rfl rfl
  simp [devCtfView, hp, h]

/-- C9: with both transforms present, the returned info holds one and the
same updated transform record under dev_head_t and dev_ctf_t: the to field
is the CTF frame and the trans matrix is the composed inverse product, so
dev_head_t no longer carries the original device-to-head matrix. -/
theorem read_meas_info_dev_head_aliased (fid : List Tag)
    (tree meas mi : TreeNode) (s0 s : ScanState) (dev ctf : CoordTrans)
    (info : Info) (m : TreeNode)
    (h1 : dir_tree_find tree FIFF.FIFFB_MEAS = [meas])
    (h2 : dir_tree_find meas FIFF.FIFFB_MEAS_INFO = [mi])
    (h3 : scan_info fid mi = .ok s0)
    (h4 : hpi_fallback fid mi s0 = .ok s)
    (h : read_meas_info fid tree = .ok (info, m))
    (hd : s.dev_head_t = some dev) (hc : s.ctf_head_t = some ctf) :
    info.dev_head_t = info.dev_ctf_t ∧
    info.dev_head_t = some { from_ := dev.from_, to_ := ctf.from_,
                             trans := (ctf.trans)⁻¹ * dev.trans } := by
  simp only [read_meas_info, h1, h2] at h
  obtain ⟨s0', nchan, sfreq, s', dig, acq, projs, comps, bads, info', hscan,
    hn, hf, hfb, hiso, hacq, hproj, hcomp, hbad, hasm, heq⟩ :=
    read_meas_info_body_ok h
  rw [h3] at hscan
  cases hscan
  rw [h4] at hfb
  cases hfb
  have hinfo : info = info' := by
    have := congrArg Prod.fst heq
    simpa using this
  subst hinfo
  have hfields := assemble_info_fields hasm
  constructor
  · rw [hfields.2.1, hfields.2.2.1, hd, hc, dev_ctf_pair_both]
  · rw [hfields.2.1, hd, hc, dev_ctf_pair_both, matInv_eq_inv]

/-- Witness: the aliasing theorem applied to the concrete stream treeC7. -/
theorem read_meas_info_dev_head_aliased_witness :
    headCtfView (read_meas_info fidM treeC7) =
      some (some { from_ := devT.from_, to_ := ctfT.from_,
                   trans := (ctfT.trans)⁻¹ * devT.trans },
            some { from_ := devT.from_, to_ := ctfT.from_,
                   trans := (ctfT.trans)⁻¹ * devT.trans }) := by
  obtain ⟨⟨info, m⟩, hp⟩ : ∃ p, read_meas_info fidM treeC7 = .ok p := ⟨_, rfl⟩
  have h := read_meas_info_dev_head_aliased fidM treeC7 measC7 miC7 s0C7 s0C7
    devT ctfT info m rfl rfl rfl rfl hp rfl rfl
  simp [headCtfView, hp, h.2, h.1.symm.trans h.2]

/-- C8 counterexample: the claimed scenario stream (one measurement block,
one info block with nchan 2, two channel records, sample rate 600, no other
tags and hence no isotrak sub-block) does not return an info record at all:
read_meas_info raises the Isotrak-not-found ValueError. -/
theorem read_meas_info_scenario_counterexample :
    read_meas_info fidM treeC8n =
      .error (.valueError "Isotrak not found") := rfl

/-- C8 (amended): the scenario stream extended with one (empty) isotrak
sub-block, on which read_meas_info returns nchan 2, sfreq 600, highpass 0,
lowpass 300 (half the sample rate) and an empty bad-channel list. -/
theorem read_meas_info_scenario :
    scalarsView (read_meas_info fidM treeC8) =
      some (2, 600, 0, 300, []) := by
  have h : scalarsView (read_meas_info fidM treeC8) =
      some (2, 600, 0, (600 : ℚ) / 2, []) := rfl
  rw [h]
  norm_num

end Mne
